import Mathlib

/-!
Shallow embedding of the MP district waste dashboards:
two Dash apps sharing a spreadsheet-derived table of district rows.
Variant "Map" is `src/unnamed/part_000` (map-click selection);
variant "Drop" is `src/app.py` (dropdown selection).
Numeric cell values are modelled over ℚ; Python runtime failures
(ValueError, IndexError, ZeroDivisionError) are modelled with `Except`.
-/

/-- Python runtime exceptions that the modelled code paths can raise. -/
inductive PyError
  | valueError
  | typeError
  | indexError
  | zeroDivisionError
  deriving Repr, DecidableEq

/-- One spreadsheet cell as pandas hands it to the callbacks:
missing (NaN / None / absent column read through a 0-default `.get`),
a numeric value, or a text cell.  For a text cell, `parsed` is the
numeric reading Python `float(s)` would produce, `none` when `float(s)`
raises ValueError (a non-numeric string). -/
inductive CellValue
  | na
  | num (q : ℚ)
  | str (s : String) (parsed : Option ℚ)
  deriving Repr, DecidableEq

/-- `pd.notna(val)`: false exactly on the missing marker. -/
def notna : CellValue → Bool
  | .na => false
  | _ => true

/-- Python `float(val)`.  Numbers convert; a text cell converts iff it
parses as a number (else ValueError); `float(None)` raises TypeError
(the NaN case never reaches here through `safe`). -/
def pyFloat : CellValue → Except PyError ℚ
  | .na => .error .typeError
  | .num q => .ok q
  | .str _ (some q) => .ok q
  | .str _ none => .error .valueError

/-- `safe(val)` from both variants (app.py line 17, part_000 line 28):
`float(val) if pd.notna(val) else 0.0`. -/
def safe (v : CellValue) : Except PyError ℚ :=
  if notna v then pyFloat v else .ok 0

/-- Python float division `a / b`: raises ZeroDivisionError on b = 0. -/
def pyDiv (a b : ℚ) : Except PyError ℚ :=
  if b = 0 then .error .zeroDivisionError else .ok (a / b)

/-- The percent-processed expression of both variants under Python
runtime semantics (app.py line 67, part_000 line 116):
`(sw_proc / sw_gen * 100) if sw_gen > 0 else 0`. -/
def percentProcessedPy (proc gen : ℚ) : Except PyError ℚ :=
  if 0 < gen then (pyDiv proc gen).map (fun q => q * 100) else .ok 0

/-- The same expression at the value level over ℚ (the guard `sw_gen > 0`
makes the divisor nonzero, so this agrees with `percentProcessedPy`;
proved below). -/
def percentProcessed (proc gen : ℚ) : ℚ :=
  if 0 < gen then proc / gen * 100 else 0

example : safe .na = .ok 0 := rfl
example : safe (.num 3) = .ok 3 := rfl
example : safe (.str "abc" none) = .error .valueError := rfl
example : percentProcessedPy 5 0 = .ok 0 := rfl
example : percentProcessed 50 100 = 50 := by norm_num [percentProcessed]

/-- Python `str.isspace`-style ASCII whitespace, as stripped by `.strip()`. -/
def pyIsSpace (c : Char) : Bool :=
  c = ' ' || c = '\t' || c = '\n' || c = '\r' || c = '\x0b' || c = '\x0c'

/-- Python `str.lower()` on one ASCII character. -/
def pyLowerChar (c : Char) : Char :=
  if 65 ≤ c.toNat ∧ c.toNat ≤ 90 then Char.ofNat (c.toNat + 32) else c

/-- Python `str.strip()` on a character list: drop leading and trailing
whitespace. -/
def pyStripList (l : List Char) : List Char :=
  ((l.dropWhile pyIsSpace).reverse.dropWhile pyIsSpace).reverse

/-- `s.lower().strip()`, the district-name normalisation applied on both
sides of the match in part_000 line 104. -/
def normName (s : String) : String :=
  String.mk (pyStripList (s.data.map pyLowerChar))

/-- One row of the loaded table (`df`), with the cells the two callbacks
read.  A cell can be missing (`.na`), numeric, or text.  The 2030 fields
are only read by the dropdown variant; sewage, growth and the
composition fields only by the map variant. -/
structure DistrictRecord where
  district : String
  census2011Pop : CellValue := .na
  swGen : CellValue := .na
  swProc : CellValue := .na
  swGap : CellValue := .na
  projPop2025 : CellValue := .na
  projPop2030 : CellValue := .na
  sewageGen : CellValue := .na
  growthRate : CellValue := .na
  swGen2030 : CellValue := .na
  swProc2030 : CellValue := .na
  swGap2030 : CellValue := .na
  pwGen : CellValue := .na
  cdGen : CellValue := .na
  ewGenTPA : CellValue := .na
  deriving Repr, DecidableEq

/-- part_000 lines 104 and 110: the row lookup of the map variant.
`df[df["District"].str.lower().str.strip() == district_name.lower().strip()]`
followed by `.iloc[0]` takes the first row whose normalised name equals
the normalised clicked name. -/
def findDistrict (table : List DistrictRecord) (name : String) :
    Option DistrictRecord :=
  table.find? (fun r => normName r.district == normName name)

/-- The map-variant row after every `safe(row.get(...))` coercion has
succeeded (part_000 lines 112-118, 137-138, 177-179). -/
structure SafeRow where
  census : ℚ := 0
  gen : ℚ := 0
  proc : ℚ := 0
  gap : ℚ := 0
  sew : ℚ := 0
  growth : ℚ := 0
  pop25 : ℚ := 0
  pop30 : ℚ := 0
  pw : ℚ := 0
  cd : ℚ := 0
  ewTPA : ℚ := 0
  deriving Repr, DecidableEq

/-- Runs the `safe(row.get(...))` coercions of the map-variant callback in
source order; the first ValueError aborts the callback, as in Python. -/
def safeRowMap (r : DistrictRecord) : Except PyError SafeRow := do
  let census ← safe r.census2011Pop
  let gen ← safe r.swGen
  let proc ← safe r.swProc
  let gap ← safe r.swGap
  let sew ← safe r.sewageGen
  let growth ← safe r.growthRate
  let pop25 ← safe r.projPop2025
  let pop30 ← safe r.projPop2030
  let pw ← safe r.pwGen
  let cd ← safe r.cdGen
  let ewTPA ← safe r.ewGenTPA
  return { census, gen, proc, gap, sew, growth, pop25, pop30, pw, cd, ewTPA }

/-- The derived numbers of the map-variant dashboard payload: KPI values
(part_000 lines 112-126), the clamped processed/gap pie (lines 162-172)
and the waste-composition pie (lines 177-183).  The population-forecast
and bar figures re-plot the same raw values and are presentation only. -/
structure MapMetrics where
  censusPop : ℚ
  swGen : ℚ
  swProc : ℚ
  swGap : ℚ
  processedPercent : ℚ
  sewageGen : ℚ
  growthRate : ℚ
  procPieLabel : String
  procPie : ℚ
  gapPie : ℚ
  pie : List (String × ℚ)
  pw : ℚ
  cd : ℚ
  ew : ℚ
  other : ℚ
  compValues : List ℚ
  deriving Repr, DecidableEq

/-- part_000 lines 116 and 162-183: the metric arithmetic of the
map-variant callback on the safely-coerced row. -/
def metricsOf (s : SafeRow) : MapMetrics :=
  let processed_percent := percentProcessed s.proc s.gen
  let proc_pie := min s.proc s.gen
  let gap_pie := max 0 (s.gen - proc_pie)
  let proc_label := if s.gen < s.proc then "Processed (100%)" else "Processed"
  let ew := s.ewTPA / 365
  let other := max 0 (s.gen - (s.pw + s.cd + ew))
  { censusPop := s.census
    swGen := s.gen
    swProc := s.proc
    swGap := s.gap
    processedPercent := processed_percent
    sewageGen := s.sew
    growthRate := s.growth
    procPieLabel := proc_label
    procPie := proc_pie
    gapPie := gap_pie
    pie := [(proc_label, proc_pie), ("Gap", gap_pie)]
    pw := s.pw
    cd := s.cd
    ew := ew
    other := other
    compValues := [s.pw, s.cd, ew, other] }

/-- Metrics derivation for one matched row of the map variant. -/
def deriveMap (r : DistrictRecord) : Except PyError MapMetrics :=
  (safeRowMap r).map metricsOf

/-- The four outputs of the map-variant callback, abstracted: both the
Unselected placeholder and the unmatched-district branch return a single
message card together with `empty_figure("Population Forecast")`, an
empty children list and `empty_figure("Waste Composition")`, differing
only in the message text; the data branch returns the derived metrics. -/
inductive MapResult
  | message (cardText : String)
  | dashboard (districtName : String) (m : MapMetrics)
  deriving Repr, DecidableEq

/-- part_000 lines 100-101: the Unselected placeholder payload. -/
def placeholderResult : MapResult := .message "Click a district on the map"

/-- part_000 lines 107-108: the unmatched-district payload. -/
def noDataResult : MapResult := .message "No data for selected district"

/-- One entry of `clickData["points"]`, with its `"location"` value. -/
structure ClickPoint where
  location : String
  deriving Repr, DecidableEq

/-- The `clickData` dict: `points?` is `none` when the `"points"` key is
absent (which also covers the falsy empty dict). -/
structure ClickData where
  points? : Option (List ClickPoint) := none
  deriving Repr, DecidableEq

/-- part_000 lines 98-201, `update_dashboard(clickData)` of the map
variant: guard (line 99), first-point access (line 103), normalised
lookup (lines 104-110), then metric derivation.  Python exceptions
(IndexError on `clickData["points"][0]`, ValueError from `safe`)
propagate out of this callback: there is no catch-all here. -/
def updateDashboardMap (table : List DistrictRecord)
    (clickData : Option ClickData) : Except PyError MapResult :=
  match clickData with
  | none => .ok placeholderResult
  | some c =>
    match c.points? with
    | none => .ok placeholderResult
    | some pts =>
      match pts.head? with
      | none => .error .indexError
      | some p =>
        match findDistrict table p.location with
        | none => .ok noDataResult
        | some row => (deriveMap row).map (MapResult.dashboard p.location)

/-- The `dcc.Graph` map starts with no `clickData`: the callback first
fires with `None`, the Unselected state. -/
def initialMapClickData : Option ClickData := none

example : normName " Bhopal " = "bhopal" := rfl
example : updateDashboardMap [] none = .ok placeholderResult := rfl
example :
    updateDashboardMap [] (some { points? := some [] }) =
      .error .indexError := rfl

/-- The dropdown-variant row after every `safe(row[...])` coercion has
succeeded (app.py lines 62-65, 94-96, 113-119; lines 113-115 re-read the
same three columns as 63-65 and yield the same values). -/
structure DropRow where
  census : ℚ := 0
  gen : ℚ := 0
  proc : ℚ := 0
  gap : ℚ := 0
  pop25 : ℚ := 0
  pop30 : ℚ := 0
  gen30 : ℚ := 0
  proc30 : ℚ := 0
  gap30 : ℚ := 0
  deriving Repr, DecidableEq

/-- Runs the `safe(row[...])` coercions of the dropdown callback in
source order. -/
def safeRowDrop (r : DistrictRecord) : Except PyError DropRow := do
  let census ← safe r.census2011Pop
  let gen ← safe r.swGen
  let proc ← safe r.swProc
  let gap ← safe r.swGap
  let pop25 ← safe r.projPop2025
  let pop30 ← safe r.projPop2030
  let gen30 ← safe r.swGen2030
  let proc30 ← safe r.swProc2030
  let gap30 ← safe r.swGap2030
  return { census, gen, proc, gap, pop25, pop30, gen30, proc30, gap30 }

/-- The derived numbers of the dropdown dashboard payload: KPI values
(app.py lines 62-75), the population series (lines 94-96), the bar-chart
values and shared y-range (lines 113-121), and the two unclamped pies
(lines 153-177, `values=[curr_proc, curr_gap]` / `[fut_proc, fut_gap]`). -/
structure DropMetrics where
  censusPop : ℚ
  swGen : ℚ
  swProc : ℚ
  swGap : ℚ
  processedPercent : ℚ
  popSeries : List ℚ
  futGen : ℚ
  futProc : ℚ
  futGap : ℚ
  yMax : ℚ
  currentPie : List (String × ℚ)
  futurePie : List (String × ℚ)
  deriving Repr, DecidableEq

/-- app.py lines 67 and 94-182: the metric arithmetic of the dropdown
callback on the safely-coerced row. -/
def dropMetricsOf (d : DropRow) : DropMetrics :=
  let processed_percent := percentProcessed d.proc d.gen
  let y_max :=
    max d.gen (max d.proc (max d.gap (max d.gen30 (max d.proc30 d.gap30)))) *
      (11 / 10)
  { censusPop := d.census
    swGen := d.gen
    swProc := d.proc
    swGap := d.gap
    processedPercent := processed_percent
    popSeries := [d.census, d.pop25, d.pop30]
    futGen := d.gen30
    futProc := d.proc30
    futGap := d.gap30
    yMax := y_max
    currentPie := [("Processed", d.proc), ("Gap", d.gap)]
    futurePie := [("Processed", d.proc30), ("Gap", d.gap30)] }

/-- The four outputs of the dropdown callback, abstracted: the except
branch (app.py line 188) returns a single message card, an empty
`go.Figure()` and two empty lists; the normal branch returns the derived
metrics. -/
inductive DropResult
  | errorPayload (cardText : String)
  | dashboard (m : DropMetrics)
  deriving Repr, DecidableEq

/-- app.py line 188: the catch-all fallback payload,
`[html.Div("Error loading data")], go.Figure(), [], []`. -/
def errorResult : DropResult := .errorPayload "Error loading data"

/-- The body of the dropdown callback's `try` block (app.py lines 58-184):
exact-string row lookup `df[df["District"] == selected_district].iloc[0]`
(IndexError when nothing matches, including `selected_district = None`),
then the `safe` coercions and metric arithmetic. -/
def dropBody (table : List DistrictRecord) (selected : Option String) :
    Except PyError DropResult := do
  let row ←
    match selected with
    | none => Except.error PyError.indexError
    | some s =>
      match table.find? (fun r => r.district == s) with
      | none => Except.error PyError.indexError
      | some r => Except.ok r
  let d ← safeRowDrop row
  return .dashboard (dropMetricsOf d)

/-- app.py lines 57-188, `update_dashboard(selected_district)` of the
dropdown variant: the whole derivation runs inside `try`, and any
exception is caught, logged and replaced by `errorResult`. -/
def updateDashboardDrop (table : List DistrictRecord)
    (selected : Option String) : DropResult :=
  match dropBody table selected with
  | .ok r => r
  | .error _ => errorResult

/-- app.py line 32: the dropdown is created with
`value=df["District"].iloc[0]`, i.e. the first district of the table is
pre-selected when the page loads (`none` only for an empty table, where
the source would instead fail at startup). -/
def initialDropdownValue (table : List DistrictRecord) : Option String :=
  table.head?.map DistrictRecord.district

/-- A small concrete table used by witnesses and counterexamples. -/
def bhopalRecord : DistrictRecord :=
  { district := "Bhopal"
    census2011Pop := .num 2371061
    swGen := .num 850
    swProc := .num 800
    swGap := .num 50
    projPop2025 := .num 2900000
    projPop2030 := .num 3200000
    sewageGen := .num 310
    growthRate := .num 1
    swGen2030 := .num 1000
    swProc2030 := .num 950
    swGap2030 := .num 50
    pwGen := .num 60
    cdGen := .num 90
    ewGenTPA := .num 730 }

/-- A second concrete row for the sample table. -/
def sehoreRecord : DistrictRecord :=
  { district := "Sehore"
    census2011Pop := .num 1311332
    swGen := .num 120
    swProc := .num 100
    swGap := .num 20
    projPop2025 := .num 1500000
    projPop2030 := .num 1650000
    sewageGen := .num 40
    growthRate := .num 2
    swGen2030 := .num 150
    swProc2030 := .num 130
    swGap2030 := .num 20
    pwGen := .num 10
    cdGen := .num 15
    ewGenTPA := .num 365 }

/-- The sample table. -/
def sampleTable : List DistrictRecord := [bhopalRecord, sehoreRecord]

example : updateDashboardDrop [] none = errorResult := rfl
example : initialDropdownValue sampleTable = some "Bhopal" := rfl
example :
    findDistrict sampleTable " Bhopal " = some bhopalRecord := rfl
example : findDistrict sampleTable "Indore" = none := rfl

/-- Claim C1: in the map-click variant the processed/gap pie uses a
processed slice clamped to `min(processed, generated)` and a gap slice
equal to `max(0, generated - processed)`; the two slices sum exactly to
`generated` whenever `generated ≥ 0`, and when raw processed exceeds raw
generated the processed slice is relabeled "Processed (100%)". -/
theorem map_pie_clamp (s : SafeRow) :
    (metricsOf s).procPie = min s.proc s.gen ∧
    (metricsOf s).gapPie = max 0 (s.gen - s.proc) ∧
    (0 ≤ s.gen → (metricsOf s).procPie + (metricsOf s).gapPie = s.gen) ∧
    (s.gen < s.proc → (metricsOf s).procPieLabel = "Processed (100%)") := by
  have hmin : min s.proc s.gen ≤ s.gen := min_le_right _ _
  refine ⟨rfl, ?_, fun _ => ?_, fun h => ?_⟩
  · show max 0 (s.gen - min s.proc s.gen) = max 0 (s.gen - s.proc)
    rcases le_total s.proc s.gen with h | h
    · rw [min_eq_left h]
    · rw [min_eq_right h, sub_self,
        max_eq_left (sub_nonpos.mpr h), max_eq_left le_rfl]
  · show min s.proc s.gen + max 0 (s.gen - min s.proc s.gen) = s.gen
    rw [max_eq_right (sub_nonneg.mpr hmin)]
    ring
  · show (if s.gen < s.proc then "Processed (100%)" else "Processed") =
      "Processed (100%)"
    rw [if_pos h]

/-- Claim C1 witness: the spec's example, generated = 100 and
processed = 120, gives slices 100 and 0 summing to 100, with the
processed slice relabeled. -/
theorem map_pie_clamp_witness :
    (metricsOf { gen := 100, proc := 120 }).procPie +
        (metricsOf { gen := 100, proc := 120 }).gapPie = 100 ∧
    (metricsOf { gen := 100, proc := 120 }).procPieLabel =
      "Processed (100%)" := by
  have h := map_pie_clamp { gen := 100, proc := 120 }
  exact ⟨h.2.2.1 (by norm_num), h.2.2.2 (by norm_num)⟩

/-- Claim C2 counterexample: percent-processed is 0 for a record with
generated = 1 > 0 and processed = 0, so "equals 0 if and only if
generated ≤ 0" is false; and with processed = -1 the value is negative,
so unconditional non-negativity is false as well. -/
theorem percent_zero_iff_cx :
    ((metricsOf { gen := 1, proc := 0 }).processedPercent = 0 ∧
      ¬ (({ gen := 1, proc := 0 } : SafeRow).gen ≤ 0)) ∧
    (metricsOf { gen := 1, proc := -1 }).processedPercent < 0 := by
  norm_num [metricsOf, percentProcessed]

/-- Claim C2 as amended: for every record with non-negative processed
value, percent-processed is non-negative, and it equals 0 exactly when
generated ≤ 0 or processed = 0. -/
theorem percent_nonneg_amended (s : SafeRow) (hp : 0 ≤ s.proc) :
    0 ≤ (metricsOf s).processedPercent ∧
    ((metricsOf s).processedPercent = 0 ↔ s.gen ≤ 0 ∨ s.proc = 0) := by
  have hm : (metricsOf s).processedPercent = percentProcessed s.proc s.gen :=
    rfl
  rw [hm]
  unfold percentProcessed
  by_cases h : 0 < s.gen
  · rw [if_pos h]
    have hg : s.gen ≠ 0 := ne_of_gt h
    refine ⟨mul_nonneg (div_nonneg hp h.le) (by norm_num), ?_, ?_⟩
    · intro h0
      rcases mul_eq_zero.mp h0 with h0 | h0
      · rcases div_eq_zero_iff.mp h0 with h0 | h0
        · exact Or.inr h0
        · exact absurd h0 hg
      · norm_num at h0
    · rintro (hg0 | hp0)
      · exact absurd h (not_lt.mpr hg0)
      · rw [hp0, zero_div, zero_mul]
  · rw [if_neg h]
    exact ⟨le_rfl, fun _ => Or.inl (not_lt.mp h), fun _ => rfl⟩

/-- Claim C2 witness: generated = 4, processed = 2 gives a non-negative
percent that is nonzero since the generated value is positive and the
processed value nonzero. -/
theorem percent_nonneg_amended_witness :
    0 ≤ (metricsOf { gen := 4, proc := 2 }).processedPercent ∧
    ((metricsOf { gen := 4, proc := 2 }).processedPercent = 0 ↔
      ({ gen := 4, proc := 2 } : SafeRow).gen ≤ 0 ∨
        ({ gen := 4, proc := 2 } : SafeRow).proc = 0) :=
  percent_nonneg_amended { gen := 4, proc := 2 } (by norm_num)

/-- Claim C3: percent processed is `processed / generated * 100` when
generated > 0 and 0 when generated ≤ 0; the guarded Python expression
raises no division error (it returns `ok` of the same value even at
generated = 0), and both variants compute this same derived value. -/
theorem percent_formula_both (proc gen : ℚ) (s : SafeRow) (d : DropRow) :
    percentProcessedPy proc gen = Except.ok (percentProcessed proc gen) ∧
    percentProcessed proc gen = (if 0 < gen then proc / gen * 100 else 0) ∧
    (gen ≤ 0 → percentProcessed proc gen = 0) ∧
    (metricsOf s).processedPercent = percentProcessed s.proc s.gen ∧
    (dropMetricsOf d).processedPercent = percentProcessed d.proc d.gen := by
  refine ⟨?_, rfl, fun hg => ?_, rfl, rfl⟩
  · unfold percentProcessedPy percentProcessed pyDiv
    by_cases h : 0 < gen
    · rw [if_pos h, if_pos h, if_neg (ne_of_gt h)]
      rfl
    · rw [if_neg h, if_neg h]
  · unfold percentProcessed
    rw [if_neg (not_lt.mpr hg)]

/-- Claim C3 witness: at generated = 0 the Python expression yields
`ok 0` (no ZeroDivisionError) and the derived percent is 0. -/
theorem percent_formula_both_witness :
    percentProcessedPy 5 0 = Except.ok (percentProcessed 5 0) ∧
    percentProcessed 5 0 = 0 :=
  ⟨(percent_formula_both 5 0 {} {}).1,
   (percent_formula_both 5 0 {} {}).2.2.1 (by norm_num)⟩

/-- Claim C4: the "other" waste-composition component equals
`max(0, generated - (plastic + construction-demolition + e-waste/365))`
and is therefore never negative. -/
theorem map_other_nonneg (s : SafeRow) :
    (metricsOf s).other = max 0 (s.gen - (s.pw + s.cd + s.ewTPA / 365)) ∧
    0 ≤ (metricsOf s).other :=
  ⟨rfl, le_max_left _ _⟩

/-- Claim C5 counterexample: a non-numeric text cell is not treated as
0.0: `safe` checks only `pd.notna`, so the value reaches `float`, which
raises ValueError. -/
theorem safe_nonnumeric_cx :
    safe (CellValue.str "abc" none) = Except.error PyError.valueError ∧
    safe (CellValue.str "abc" none) ≠ Except.ok 0 :=
  ⟨rfl, fun h => Except.noConfusion h⟩

/-- Claim C5 as amended: a missing cell (NaN/None) is treated as 0.0 and
numeric cells convert, never raising; but a non-numeric text cell raises
ValueError through `float` instead of degrading to 0.0.  Every derived
ratio still guards a non-positive denominator and degrades to 0. -/
theorem safe_behavior_amended (q : ℚ) (s : String) (p g : ℚ) (hg : g ≤ 0) :
    safe CellValue.na = Except.ok 0 ∧
    safe (CellValue.num q) = Except.ok q ∧
    safe (CellValue.str s (some q)) = Except.ok q ∧
    safe (CellValue.str s none) = Except.error PyError.valueError ∧
    percentProcessed p g = 0 := by
  refine ⟨rfl, rfl, rfl, rfl, ?_⟩
  unfold percentProcessed
  rw [if_neg (not_lt.mpr hg)]

/-- Claim C5 witness: the missing marker maps to 0 and the percent guard
degrades to 0 at a zero denominator. -/
theorem safe_behavior_amended_witness :
    safe CellValue.na = Except.ok 0 ∧ percentProcessed 7 0 = 0 :=
  ⟨(safe_behavior_amended 3 "x" 7 0 (by norm_num)).1,
   (safe_behavior_amended 3 "x" 7 0 (by norm_num)).2.2.2.2⟩

/-- Claim C6: in the map-click variant, a click whose district name
matches no record yields exactly the "No data for selected district"
payload — no exception, no stale data (the callback output depends only
on the current click and the immutable table) — and that payload differs
from the Unselected placeholder payload. -/
theorem map_nodata_payload (table : List DistrictRecord) (c : ClickData)
    (p : ClickPoint) (ps : List ClickPoint)
    (hpts : c.points? = some (p :: ps))
    (hmiss : findDistrict table p.location = none) :
    updateDashboardMap table (some c) = .ok noDataResult ∧
    noDataResult ≠ placeholderResult := by
  obtain ⟨pq⟩ := c
  simp only at hpts
  subst hpts
  refine ⟨?_, by decide⟩
  have hstep : updateDashboardMap table (some { points? := some (p :: ps) }) =
      (match findDistrict table p.location with
       | none => Except.ok noDataResult
       | some row => (deriveMap row).map (MapResult.dashboard p.location)) :=
    rfl
  rw [hstep, hmiss]

/-- Claim C6 witness: clicking "Indore", absent from the sample table,
returns the no-data payload. -/
theorem map_nodata_payload_witness :
    updateDashboardMap sampleTable
        (some { points? := some [{ location := "Indore" }] }) =
      .ok noDataResult :=
  (map_nodata_payload sampleTable
    { points? := some [{ location := "Indore" }] }
    { location := "Indore" } [] rfl rfl).1

/-- Claim C7: district-name matching in the map-click variant is
case-insensitive and whitespace-trimmed: any two clicked names with the
same `lower().strip()` normalisation select the same record. -/
theorem lookup_normalized (t : List DistrictRecord) (a b : String)
    (h : normName a = normName b) :
    findDistrict t a = findDistrict t b := by
  unfold findDistrict
  simp only [h]

/-- Claim C7 witness: " Bhopal " and "bhopal" select the same record of
the sample table, namely the Bhopal row. -/
theorem lookup_normalized_witness :
    findDistrict sampleTable " Bhopal " = findDistrict sampleTable "bhopal" ∧
    findDistrict sampleTable " Bhopal " = some bhopalRecord :=
  ⟨lookup_normalized sampleTable " Bhopal " "bhopal" rfl, rfl⟩

/-- Claim C8: in the dropdown variant, whenever the per-selection
derivation raises any exception, the callback returns the defined error
payload (an "Error loading data" card with empty figure and lists)
instead of propagating the exception. -/
theorem dropdown_catch_all (t : List DistrictRecord) (sel : Option String)
    (e : PyError) (h : dropBody t sel = .error e) :
    updateDashboardDrop t sel = errorResult ∧
    errorResult = DropResult.errorPayload "Error loading data" := by
  refine ⟨?_, rfl⟩
  unfold updateDashboardDrop
  rw [h]

/-- Claim C8 witness: selecting "Indore", absent from the sample table,
makes `iloc[0]` raise IndexError inside the `try` block, and the
callback returns the error payload. -/
theorem dropdown_catch_all_witness :
    updateDashboardDrop sampleTable (some "Indore") = errorResult :=
  (dropdown_catch_all sampleTable (some "Indore") .indexError rfl).1

/-- Claim C9 counterexample: the dropdown variant does not start in an
Unselected state: the dropdown is created with
`value=df["District"].iloc[0]` (app.py line 32), so on the sample table
the initial selection is already "Bhopal" rather than empty. -/
theorem binder_initial_cx :
    initialDropdownValue sampleTable = some "Bhopal" ∧
    initialDropdownValue sampleTable ≠ none :=
  ⟨rfl, fun h => Option.noConfusion h⟩

/-- Claim C9 as amended: the map-click variant is a two-state binder
whose initial state is Unselected (initial clickData `None`) and which
returns the prompt placeholder while Unselected; the dropdown variant
instead initialises pre-selected to the table's first district, and an
empty dropdown selection produces the error payload, not a prompt.  In
both variants the output is a pure function of the current selection
input, so there are no auto-transitions and no stale data. -/
theorem binder_states_amended (t : List DistrictRecord) (r : DistrictRecord)
    (rest : List DistrictRecord) (ht : t = r :: rest) :
    updateDashboardMap t initialMapClickData = .ok placeholderResult ∧
    placeholderResult = MapResult.message "Click a district on the map" ∧
    initialDropdownValue t = some r.district ∧
    updateDashboardDrop t none = errorResult := by
  subst ht
  exact ⟨rfl, rfl, rfl, rfl⟩

/-- Claim C9 witness: on the sample table, the map variant starts on the
placeholder and the dropdown variant starts pre-selected to Bhopal. -/
theorem binder_states_amended_witness :
    updateDashboardMap sampleTable initialMapClickData =
      .ok placeholderResult ∧
    initialDropdownValue sampleTable = some bhopalRecord.district ∧
    updateDashboardDrop sampleTable none = errorResult :=
  ⟨(binder_states_amended sampleTable bhopalRecord [sehoreRecord] rfl).1,
   (binder_states_amended sampleTable bhopalRecord [sehoreRecord] rfl).2.2.1,
   (binder_states_amended sampleTable bhopalRecord [sehoreRecord] rfl).2.2.2⟩

/-- Claim C10: the map-click callback's guard takes the placeholder
branch exactly when clickData is absent or lacks a "points" key, so for
a clickData whose "points" list is empty the guard passes and the
`clickData["points"][0]` access raises IndexError. -/
theorem map_guard_empty_points (t : List DistrictRecord) :
    (∀ c : ClickData, c.points? = some [] →
      updateDashboardMap t (some c) = .error .indexError) ∧
    (∀ cd : Option ClickData,
      updateDashboardMap t cd = .ok placeholderResult ↔
        cd = none ∨ ∃ c, cd = some c ∧ c.points? = none) := by
  constructor
  · rintro ⟨pq⟩ hp
    simp only at hp
    subst hp
    rfl
  · intro cd
    rcases cd with _ | ⟨pq⟩
    · simp [updateDashboardMap]
    rcases pq with _ | pts
    · exact ⟨fun _ => Or.inr ⟨{ points? := none }, rfl, rfl⟩, fun _ => rfl⟩
    constructor
    · intro h
      exfalso
      rcases pts with _ | ⟨p, ps⟩
      · exact Except.noConfusion h
      · have hstep :
            updateDashboardMap t (some { points? := some (p :: ps) }) =
              (match findDistrict t p.location with
               | none => Except.ok noDataResult
               | some row =>
                  (deriveMap row).map (MapResult.dashboard p.location)) := rfl
        rw [hstep] at h
        rcases hfind : findDistrict t p.location with _ | row
        · rw [hfind] at h
          exact absurd (Except.ok.inj h) (by decide)
        · rw [hfind] at h
          have h2 : Except.map (MapResult.dashboard p.location) (deriveMap row) =
              Except.ok placeholderResult := h
          rcases hder : deriveMap row with e | m
          · rw [hder] at h2
            exact Except.noConfusion h2
          · rw [hder] at h2
            exact MapResult.noConfusion (Except.ok.inj h2)
    · rintro (h | ⟨c, hc, hcp⟩)
      · exact Option.noConfusion h
      · cases hc
        exact Option.noConfusion hcp

/-- Claim C10 witness: an empty "points" list raises IndexError on the
sample table, while an absent clickData takes the placeholder branch. -/
theorem map_guard_empty_points_witness :
    updateDashboardMap sampleTable (some { points? := some [] }) =
      .error .indexError ∧
    updateDashboardMap sampleTable none = .ok placeholderResult :=
  ⟨(map_guard_empty_points sampleTable).1 { points? := some [] } rfl,
   ((map_guard_empty_points sampleTable).2 none).mpr (Or.inl rfl)⟩
